import Mathlib

/-!
# Verification of the android-safetynet attestation verifier

Shallow embedding of `attestation/androidsafetynet/androidsafetynet.go`
(`verifyAndroidSafetynet` and its data model) together with symbolic models of
the external libraries it calls (`gopkg.in/square/go-jose.v2`, `crypto/x509`,
`crypto/sha256`, `encoding/json`) and of the `protocol` package types it uses.

External cryptographic and parsing primitives are modelled symbolically: a byte
string either is the serialization of a structured value (in which case the
library parse succeeds and returns that value) or it is an opaque blob (the
parse fails with the fixed error message of that library); a signature verifies
exactly under the key that produced it; the digest is an ideal collision-free
(injective) function of the hashed bytes.  The control flow of the verifier,
field extraction, error construction, nonce comparison and policy check are
translated line by line from the Go source.

Time is made explicit: the Go source reads a package-level clock `now` (a
swappable `time.Now`); the embedding passes a clock as a function from reading
index to time, and the verifier additionally returns how many clock readings it
performed, so that single-reading and clock-consistency properties can be
stated.
-/

namespace AndroidSafetynet

/-- An X.509 certificate as far as this verifier observes it: the DNS names it
is valid for, its validity window (seconds, as an integer timestamp), and its
public key (symbolic key identifier). -/
structure Certificate where
  dnsNames : List String
  notBefore : Int
  notAfter : Int
  pubKey : Nat
deriving DecidableEq

/-- Fallback certificate used only to totalize the (never-failing) list
indexing `cert[0][0]` of the source; the chain returned by a successful
`certificates` call is nonempty by construction, so this value is never
selected. -/
def emptyCertificate : Certificate := ⟨[], 0, 0, 0⟩

/-- The JSON payload structure of a SafetyNet response, from the source
(`AndroidSafetyNetAttestionResponse`, field for field, byte slices as
`List Nat`). -/
structure AndroidSafetyNetAttestionResponse where
  nonce : List Nat
  timestampMs : Int
  apkPackageName : String
  apkDigestSha256 : List Nat
  ctsProfileMatch : Bool
  apkCertificateDigestSha256 : List (List Nat)
  basicIntegrity : Bool
deriving DecidableEq

/-- Symbolic payload bytes carried by a JWS: either bytes that decode
(via `json.Unmarshal`) to a response structure, or an opaque blob on which
decoding fails. -/
inductive PayloadBytes where
  | blob (l : List Nat)
  | json (r : AndroidSafetyNetAttestionResponse)
deriving DecidableEq

/-- One signature section of a JWS, as far as the verifier observes it: the
`x5c` certificate chain of its protected header (leaf first), whether that
chain chains up to a root of the ambient trust pool, and the (symbolic) key
under which the signature cryptographically verifies. -/
structure JoseSignature where
  x5c : List Certificate
  rooted : Bool
  sigKey : Nat
deriving DecidableEq

/-- A parsed JWS (`jose.JSONWebSignature`): its signature sections and its
payload bytes. -/
structure JSONWebSignature where
  signatures : List JoseSignature
  payload : PayloadBytes
deriving DecidableEq

/-- Symbolic byte strings handed to `jose.ParseSigned`: either the
serialization of a JWS (parsing succeeds and yields it), or an opaque blob
(parsing fails). -/
inductive SymBytes where
  | blob (l : List Nat)
  | serializedJWS (j : JSONWebSignature)
deriving DecidableEq

/-- Modelled from the spec: the attestation-statement mapping is untyped
(`map[string]interface{}` in the `protocol` package, which is outside the
provided sources); a dynamic value is a string, a byte sequence, or a value of
some other runtime type of which only the type name is observable (Go `%T`). -/
inductive AttValue where
  | str (s : String)
  | bytes (b : SymBytes)
  | other (typeRepr : String)
deriving DecidableEq

/-- The Go `%T` type name of a dynamic value (`[]byte` prints as `[]uint8`). -/
def AttValue.typeName : AttValue → String
  | .str _ => ("string")
  | .bytes _ => ("[]uint8")
  | .other t => t

/-- Modelled from the spec: the authenticator data as the verifier observes it
(`protocol` package, outside the provided sources) — only its raw bytes are
read. -/
structure AuthData where
  raw : List Nat
deriving DecidableEq

/-- Modelled from the spec: a `protocol.Attestation` as this verifier observes
it — the untyped attestation-statement mapping plus the authenticator data. -/
structure Attestation where
  attStmt : List (String × AttValue)
  authData : AuthData
deriving DecidableEq

/-- Modelled from the spec: a typed `protocol` error — a stable error kind,
free-form diagnostic detail, and an optional wrapped underlying cause. -/
structure ProtocolError where
  kind : String
  debugDetail : String
  cause : Option String
deriving DecidableEq

/-- Modelled from the spec: the `protocol.ErrInvalidAttestation` base error
value used by every failure return of this verifier; its stable kind. -/
def ErrInvalidAttestation : ProtocolError :=
  ⟨("invalid_attestation"), (""), none⟩

/-- Modelled from the spec: `WithDebug` attaches diagnostic detail, leaving
the stable kind (and cause) unchanged. `WithDebugf` is the same with the
format string applied, inlined at each call site below. -/
def ProtocolError.withDebug (e : ProtocolError) (d : String) : ProtocolError :=
  { e with debugDetail := d }

/-- Modelled from the spec: `WithCause` wraps an underlying library error,
leaving the stable kind and detail unchanged. -/
def ProtocolError.withCause (e : ProtocolError) (c : String) : ProtocolError :=
  { e with cause := some c }

/-- Symbolic model of `jose.ParseSigned`: serialized JWS bytes parse to the
JWS, anything else fails with the parse error message of the library. -/
def joseParseSigned : SymBytes → Except String JSONWebSignature
  | .blob _ => .error ("go-jose: compact JWS format must have three parts")
  | .serializedJWS j => .ok j

/-- The slice of `x509.VerifyOptions` the source sets: the pinned DNS name and
the current time. -/
structure VerifyOptions where
  dnsName : String
  currentTime : Int
deriving DecidableEq

/-- The validity window of a certificate contains the given time. -/
def certValidAt (c : Certificate) (t : Int) : Bool :=
  decide (c.notBefore ≤ t) && decide (t ≤ c.notAfter)

/-- Symbolic model of `Protected.Certificates(opts)` (go-jose calling
`x509.Certificate.Verify`): success requires a nonempty embedded chain, every
certificate of the chain valid at `opts.currentTime`, the chain rooted in the
trust pool, and the leaf valid for `opts.dnsName`; on success the validated
chains (leaf first) are returned, otherwise the error message. -/
def certificates (sig : JoseSignature) (opts : VerifyOptions) :
    Except String (List (List Certificate)) :=
  match sig.x5c with
  | [] => .error ("go-jose: no x5c header present in message")
  | leaf :: rest =>
    if !(leaf :: rest).all (fun c => certValidAt c opts.currentTime) then
      .error ("x509: certificate has expired or is not yet valid")
    else if !sig.rooted then
      .error ("x509: certificate signed by unknown authority")
    else if !leaf.dnsNames.contains opts.dnsName then
      .error ("x509: certificate is not valid for the requested name")
    else
      .ok [sig.x5c]

/-- Symbolic model of `JSONWebSignature.Verify(key)`: the signature verifies
exactly under the key that produced it; on success the payload bytes are
returned. -/
def joseVerify (j : JSONWebSignature) (key : Nat) : Except String PayloadBytes :=
  if j.signatures.any (fun s => s.sigKey == key) then .ok j.payload
  else .error ("go-jose: error in cryptographic primitive")

/-- Symbolic model of `json.Unmarshal` into
`AndroidSafetyNetAttestionResponse`: payload bytes either decode to a response
structure or fail with the fixed error message. -/
def jsonUnmarshal : PayloadBytes → Except String AndroidSafetyNetAttestionResponse
  | .blob _ => .error ("json: cannot unmarshal payload")
  | .json r => .ok r

/-- Symbolic model of `sha256.Sum256` (`crypto/sha256`, external to this
repository): an ideal collision-free digest, i.e. an injective executable
function of the hashed bytes.  Every property proved below depends only on
which bytes are hashed and on collision-freeness, never on the shape of the
digest. -/
def sha256 (msg : List Nat) : List Nat := msg.length :: msg

/- Named error values, one per return site of `verifyAndroidSafetynet`
(the debug strings are those of the source, with `%v` rendered as appending the
underlying library message). -/

/-- Error of the `ver`-missing return site. -/
def missingVerError : ProtocolError :=
  ErrInvalidAttestation.withDebug ("missing ver for android-safetynet")

/-- Error of the `ver`-wrong-type return site (`%T` of the raw value). -/
def invalidVerTypeError (t : String) : ProtocolError :=
  ErrInvalidAttestation.withDebug
    (("invalid ver for android-safetynet, is of invalid type ") ++ t)

/-- Error of the empty-`ver` return site. -/
def emptyVerError : ProtocolError :=
  ErrInvalidAttestation.withDebug ("invalid ver for android-safetynet")

/-- Error of the `response`-missing return site. -/
def missingResponseError : ProtocolError :=
  ErrInvalidAttestation.withDebug ("missing response for android-safetynet")

/-- Error of the `response`-wrong-type return site.  The source formats `%T`
of the zero-valued result of the failed type assertion (a nil `[]byte`), so
the printed type is always `[]uint8` regardless of the actual dynamic type. -/
def invalidResponseTypeError : ProtocolError :=
  ErrInvalidAttestation.withDebug
    ("invalid response for android-safetynet, is of invalid type []uint8")

/-- Error of the `jose.ParseSigned`-failure return site (also the shape of the
`json.Unmarshal`-failure site: same format string, no wrapped cause). -/
def malformedResponseError (e : String) : ProtocolError :=
  ErrInvalidAttestation.withDebug
    (("invalid response for android-safetynet: ") ++ e)

/-- Error of the signature-count return site. -/
def signatureCountError : ProtocolError :=
  ErrInvalidAttestation.withDebug
    ("invalid response for android-safetynet: more or less than 1 signature")

/-- Error of the certificate-chain-validation return site: diagnostic detail
plus the wrapped underlying X.509 error. -/
def chainError (e : String) : ProtocolError :=
  (ErrInvalidAttestation.withDebug
    (("invalid response for android-safetynet: ") ++ e)).withCause e

/-- Error of the signature-verification return site: diagnostic detail plus
the wrapped underlying error. -/
def signatureVerifyError (e : String) : ProtocolError :=
  (ErrInvalidAttestation.withDebug
    (("invalid response for android-safetynet: ") ++ e)).withCause e

/-- Error of the `json.Unmarshal`-failure return site (no wrapped cause). -/
def unmarshalError (e : String) : ProtocolError :=
  ErrInvalidAttestation.withDebug
    (("invalid response for android-safetynet: ") ++ e)

/-- Error of the nonce-comparison return site. -/
def nonceMismatchError : ProtocolError :=
  ErrInvalidAttestation.withDebug
    ("invalid response for android-safetynet: invalid nonce")

/-- Error of the `ctsProfileMatch` return site. -/
def ctsProfileError : ProtocolError :=
  ErrInvalidAttestation.withDebug
    ("invalid response for android-safetynet: does not match CTS profile")

/-- `verifyAndroidSafetynet`, translated match-for-match from the source.
`clock` models the package-level `now`: reading `i` returns `clock i`; the
second component of the result counts how many clock readings the call
performed (the single textual `now()` call of the source sits in the
`x509.VerifyOptions`, reached only after parsing and the signature-count
check).  `none` is the `nil` return of the source. -/
def verifyAndroidSafetynet (clock : Nat → Int) (a : Attestation)
    (clientDataHash : List Nat) : Option ProtocolError × Nat :=
  match a.attStmt.lookup ("ver") with
  | none => (some missingVerError, 0)
  | some rawVer =>
    match rawVer with
    | .str ver =>
      if ver = ("") then
        (some emptyVerError, 0)
      else
        match a.attStmt.lookup ("response") with
        | none => (some missingResponseError, 0)
        | some rawResponse =>
          match rawResponse with
          | .bytes responseBytes =>
            match joseParseSigned responseBytes with
            | .error e => (some (malformedResponseError e), 0)
            | .ok response =>
              match response.signatures with
              | [sig0] =>
                match certificates sig0 ⟨("attest.android.com"), clock 0⟩ with
                | .error e => (some (chainError e), 1)
                | .ok cert =>
                  let leaf := (cert.headD []).headD emptyCertificate
                  match joseVerify response leaf.pubKey with
                  | .error e => (some (signatureVerifyError e), 1)
                  | .ok payload =>
                    match jsonUnmarshal payload with
                    | .error e => (some (unmarshalError e), 1)
                    | .ok attestationResponse =>
                      let nonceBytes := a.authData.raw ++ clientDataHash
                      let expectedNonce := sha256 nonceBytes
                      if expectedNonce ≠ attestationResponse.nonce then
                        (some nonceMismatchError, 1)
                      else if !attestationResponse.ctsProfileMatch then
                        (some ctsProfileError, 1)
                      else
                        (none, 1)
              | _ => (some signatureCountError, 0)
          | _ => (some invalidResponseTypeError, 0)
    | _ => (some (invalidVerTypeError rawVer.typeName), 0)

end AndroidSafetynet

namespace AndroidSafetynet

/-- The verifier reads the clock only through reading index `0`: two clocks
that agree on their first reading give identical results. -/
lemma verify_clock_agree (c₁ c₂ : Nat → Int) (a : Attestation) (h : List Nat)
    (hc : c₁ 0 = c₂ 0) :
    verifyAndroidSafetynet c₁ a h = verifyAndroidSafetynet c₂ a h := by
  unfold verifyAndroidSafetynet
  rw [hc]

/-- Evaluation of the verifier once every stage up to payload decoding is
pinned by hypotheses: only the nonce comparison and the `ctsProfileMatch`
check remain. -/
lemma verify_eval (clock : Nat → Int) (a : Attestation) (cdh : List Nat)
    (v : String) (j : JSONWebSignature) (sig : JoseSignature)
    (chains : List (List Certificate)) (p : PayloadBytes)
    (r : AndroidSafetyNetAttestionResponse)
    (hv : a.attStmt.lookup ("ver") = some (.str v))
    (hv0 : ¬ v = (""))
    (hr : a.attStmt.lookup ("response") = some (.bytes (.serializedJWS j)))
    (hs : j.signatures = [sig])
    (hc : certificates sig ⟨("attest.android.com"), clock 0⟩ = .ok chains)
    (hk : joseVerify j ((chains.headD []).headD emptyCertificate).pubKey = .ok p)
    (hum : jsonUnmarshal p = .ok r) :
    verifyAndroidSafetynet clock a cdh =
      (if sha256 (a.authData.raw ++ cdh) ≠ r.nonce then some nonceMismatchError
       else if !r.ctsProfileMatch then some ctsProfileError
       else none, 1) := by
  unfold verifyAndroidSafetynet
  simp only [hv, hr, hs, hc, hk, hum, joseParseSigned, if_neg hv0]
  split_ifs <;> rfl

/-- A successful `joseVerify` call means some signature section verifies under
the supplied key, and the returned bytes are the JWS payload. -/
lemma joseVerify_ok_inv (j : JSONWebSignature) (k : Nat) (p : PayloadBytes)
    (h : joseVerify j k = .ok p) :
    j.signatures.any (fun s => s.sigKey == k) = true ∧ p = j.payload := by
  unfold joseVerify at h
  split at h
  · exact ⟨by assumption, by injection h with h; exact h.symm⟩
  · cases h

/-- A successful `jsonUnmarshal` call means the payload bytes were the
serialization of the returned response structure. -/
lemma jsonUnmarshal_ok_inv (p : PayloadBytes)
    (r : AndroidSafetyNetAttestionResponse) (h : jsonUnmarshal p = .ok r) :
    p = .json r := by
  cases p with
  | blob l => cases h
  | json r0 => unfold jsonUnmarshal at h; injection h with h; rw [h]

/-- A failing `jsonUnmarshal` call always carries the fixed library error
message. -/
lemma jsonUnmarshal_error_inv (p : PayloadBytes) (e : String)
    (h : jsonUnmarshal p = .error e) :
    e = ("json: cannot unmarshal payload") := by
  cases p with
  | blob l => unfold jsonUnmarshal at h; injection h with h; exact h.symm
  | json r => cases h

/-- The modelled digest is collision-free. -/
lemma sha256_injective (x y : List Nat) (h : sha256 x = sha256 y) : x = y := by
  unfold sha256 at h
  injection h

/- Concrete fixtures used by the witnesses and counterexamples below. -/

/-- A fixed test clock: every reading returns time `5`. -/
def testClock : Nat → Int := fun _ => 5

/-- A leaf certificate pinned to the production identity, with a validity
window containing the test clock time. -/
def testCert : Certificate := ⟨[("attest.android.com")], 0, 100, 7⟩

/-- A signature section whose embedded chain is `[testCert]`, rooted in the
trust pool, and whose signature verifies under the key of `testCert`. -/
def testSig : JoseSignature := ⟨[testCert], true, 7⟩

/-- A payload bound to authenticator data `[1, 2, 3]` and client-data hash
`[9]`, with both integrity flags true. -/
def testResponse : AndroidSafetyNetAttestionResponse :=
  ⟨sha256 ([1, 2, 3] ++ [9]), 0, ("com.example.app"), [], true, [], true⟩

/-- A well-formed signed response built from `testSig` and `testResponse`. -/
def testJWS : JSONWebSignature := ⟨[testSig], .json testResponse⟩

/-- A complete well-formed attestation statement for authenticator data
`[1, 2, 3]`, with version string `"14"`. -/
def testAttestation : Attestation :=
  ⟨[(("ver"), .str ("14")), (("response"), .bytes (.serializedJWS testJWS))],
    ⟨[1, 2, 3]⟩⟩

/-- Like `testAttestation` but with the attestation statement lacking the
`ver` entry. -/
def noVerAttestation : Attestation :=
  ⟨[(("response"), .bytes (.serializedJWS testJWS))], ⟨[1, 2, 3]⟩⟩

/-- Like `testAttestation` but with version string `"15"`. -/
def ver15Attestation : Attestation :=
  ⟨[(("ver"), .str ("15")), (("response"), .bytes (.serializedJWS testJWS))],
    ⟨[1, 2, 3]⟩⟩

/-- C5. Statement extraction failure: whenever the `ver` field or the
`response` field is absent, or `ver` is present but not a non-empty string, or
`response` is present but not a byte sequence, `verifyAndroidSafetynet`
returns the corresponding statement-extraction error (what the spec calls
`MalformedStatement`) and no later stage executes: the result is the
extraction-site error value and the clock is never read (reading count 0). -/
theorem statement_extraction_failure (clock : Nat → Int) (a : Attestation)
    (cdh : List Nat) :
    (a.attStmt.lookup ("ver") = none →
      verifyAndroidSafetynet clock a cdh = (some missingVerError, 0)) ∧
    (∀ b, a.attStmt.lookup ("ver") = some (.bytes b) →
      verifyAndroidSafetynet clock a cdh =
        (some (invalidVerTypeError ("[]uint8")), 0)) ∧
    (∀ t, a.attStmt.lookup ("ver") = some (.other t) →
      verifyAndroidSafetynet clock a cdh = (some (invalidVerTypeError t), 0)) ∧
    (a.attStmt.lookup ("ver") = some (.str ("")) →
      verifyAndroidSafetynet clock a cdh = (some emptyVerError, 0)) ∧
    (∀ v, a.attStmt.lookup ("ver") = some (.str v) → ¬ v = ("") →
      a.attStmt.lookup ("response") = none →
      verifyAndroidSafetynet clock a cdh = (some missingResponseError, 0)) ∧
    (∀ v s, a.attStmt.lookup ("ver") = some (.str v) → ¬ v = ("") →
      a.attStmt.lookup ("response") = some (.str s) →
      verifyAndroidSafetynet clock a cdh = (some invalidResponseTypeError, 0)) ∧
    (∀ v t, a.attStmt.lookup ("ver") = some (.str v) → ¬ v = ("") →
      a.attStmt.lookup ("response") = some (.other t) →
      verifyAndroidSafetynet clock a cdh = (some invalidResponseTypeError, 0)) := by
  refine ⟨?_, ?_, ?_, ?_, ?_, ?_, ?_⟩
  · intro h; unfold verifyAndroidSafetynet; simp only [h]
  · intro b h; unfold verifyAndroidSafetynet; simp only [h, AttValue.typeName]
  · intro t h; unfold verifyAndroidSafetynet; simp only [h, AttValue.typeName]
  · intro h; unfold verifyAndroidSafetynet; simp [h]
  · intro v h hv hr
    unfold verifyAndroidSafetynet; simp only [h, if_neg hv, hr]
  · intro v s h hv hr
    unfold verifyAndroidSafetynet; simp only [h, if_neg hv, hr]
  · intro v t h hv hr
    unfold verifyAndroidSafetynet; simp only [h, if_neg hv, hr]

/-- Witness for C5 at a concrete input: an attestation statement lacking
`ver` yields the missing-`ver` error with zero clock readings. -/
theorem statement_extraction_failure_witness :
    verifyAndroidSafetynet testClock noVerAttestation [9] =
      (some missingVerError, 0) :=
  (statement_extraction_failure testClock noVerAttestation [9]).1 rfl

/-- C8. Determinism: the verifier is a pure function of the attestation,
the client-data hash and the single clock value it reads, so two runs on fixed
inputs and a fixed clock value — even under clocks that differ beyond that
reading — produce identical results. -/
theorem determinism_fixed_clock (c₁ c₂ : Nat → Int) (a : Attestation)
    (cdh : List Nat) (hc : c₁ 0 = c₂ 0) :
    verifyAndroidSafetynet c₁ a cdh = verifyAndroidSafetynet c₂ a cdh :=
  verify_clock_agree c₁ c₂ a cdh hc

/-- Witness for C8: two concrete clocks with the same first reading give
the same result on `testAttestation`. -/
theorem determinism_fixed_clock_witness :
    verifyAndroidSafetynet testClock testAttestation [9] =
      verifyAndroidSafetynet (fun n => if n = 0 then (5 : Int) else 99)
        testAttestation [9] :=
  determinism_fixed_clock testClock (fun n => if n = 0 then (5 : Int) else 99)
    testAttestation [9] rfl

/-- C10. Version-value noninterference: two attestations that agree on
everything except the value of the `ver` field — both values being non-empty
strings — verify to the same result. -/
theorem version_value_noninterference (clock : Nat → Int) (a₁ a₂ : Attestation)
    (cdh : List Nat) (v₁ v₂ : String)
    (hv₁ : a₁.attStmt.lookup ("ver") = some (.str v₁)) (h₁ : ¬ v₁ = (""))
    (hv₂ : a₂.attStmt.lookup ("ver") = some (.str v₂)) (h₂ : ¬ v₂ = (""))
    (hresp : a₁.attStmt.lookup ("response") = a₂.attStmt.lookup ("response"))
    (had : a₁.authData = a₂.authData) :
    verifyAndroidSafetynet clock a₁ cdh = verifyAndroidSafetynet clock a₂ cdh := by
  unfold verifyAndroidSafetynet
  simp only [hv₁, hv₂, if_neg h₁, if_neg h₂, hresp, had]

/-- Witness for C10: version strings `"14"` and `"15"` on otherwise
identical attestations produce the same result. -/
theorem version_value_noninterference_witness :
    verifyAndroidSafetynet testClock testAttestation [9] =
      verifyAndroidSafetynet testClock ver15Attestation [9] :=
  version_value_noninterference testClock testAttestation ver15Attestation [9]
    ("14") ("15") rfl (by decide) rfl (by decide) rfl rfl

/-- Like `testAttestation`, but the second integrity flag of the payload
(`basicIntegrity`) is false. -/
def altIntegrityAttestation : Attestation :=
  ⟨[(("ver"), .str ("14")),
    (("response"), .bytes (.serializedJWS ⟨[testSig],
      .json ⟨sha256 ([1, 2, 3] ++ [9]), 0, ("com.example.app"), [], true, [],
        false⟩⟩))],
    ⟨[1, 2, 3]⟩⟩

/-- A leaf certificate valid only for identity `attest.example.com`, with the
same validity window and key as `testCert`. -/
def exampleComCert : Certificate := ⟨[("attest.example.com")], 0, 100, 7⟩

/-- A rooted signature section over `exampleComCert`. -/
def exampleComSig : JoseSignature := ⟨[exampleComCert], true, 7⟩

/-- A well-formed signed response whose chain is valid for
`attest.example.com` (and not for the pinned identity), carrying
`testResponse`. -/
def exampleComJWS : JSONWebSignature := ⟨[exampleComSig], .json testResponse⟩

/-- The attestation of the end-to-end spec scenario read literally: version
`"14"`, chain valid for `attest.example.com` at the clock time, integrity flag
true, nonce equal to SHA-256 of authenticatorData.raw ++ clientDataHash for
client-data hash `[9]`. -/
def exampleComAttestation : Attestation :=
  ⟨[(("ver"), .str ("14")),
    (("response"), .bytes (.serializedJWS exampleComJWS))],
    ⟨[1, 2, 3]⟩⟩

/-- C3. Nonce binding check: with every earlier stage pinned successful,
the verifier fails with the nonce-mismatch error exactly when SHA-256 of the
byte-exact concatenation `authenticatorData.raw ++ clientDataHash` is not
byte-for-byte equal to the nonce field of the payload. -/
theorem nonce_binding_check (clock : Nat → Int) (a : Attestation)
    (cdh : List Nat) (v : String) (j : JSONWebSignature) (sig : JoseSignature)
    (chains : List (List Certificate)) (p : PayloadBytes)
    (r : AndroidSafetyNetAttestionResponse)
    (hv : a.attStmt.lookup ("ver") = some (.str v))
    (hv0 : ¬ v = (""))
    (hr : a.attStmt.lookup ("response") = some (.bytes (.serializedJWS j)))
    (hs : j.signatures = [sig])
    (hc : certificates sig ⟨("attest.android.com"), clock 0⟩ = .ok chains)
    (hk : joseVerify j ((chains.headD []).headD emptyCertificate).pubKey = .ok p)
    (hum : jsonUnmarshal p = .ok r) :
    ((verifyAndroidSafetynet clock a cdh).1 = some nonceMismatchError ↔
      sha256 (a.authData.raw ++ cdh) ≠ r.nonce) := by
  have hne : ¬ (ctsProfileError = nonceMismatchError) := by decide
  rw [verify_eval clock a cdh v j sig chains p r hv hv0 hr hs hc hk hum]
  by_cases hn : sha256 (a.authData.raw ++ cdh) ≠ r.nonce
  · simp [hn]
  · cases hcts : r.ctsProfileMatch <;> simp [hn, hcts, hne]

/-- Witness for C3 at a concrete input: on `testAttestation` with the
wrong client-data hash `[8]`, failing with the nonce-mismatch error is
equivalent to the recomputed digest differing from the payload nonce. -/
theorem nonce_binding_check_witness :
    ((verifyAndroidSafetynet testClock testAttestation [8]).1 =
        some nonceMismatchError ↔
      sha256 (testAttestation.authData.raw ++ [8]) ≠ testResponse.nonce) :=
  nonce_binding_check testClock testAttestation [8] ("14") testJWS testSig
    [[testCert]] (.json testResponse) testResponse rfl (by decide) rfl rfl rfl
    rfl rfl

/-- C4. Integrity policy gating: with chain, signature, decoded payload
and nonce all valid, verification succeeds exactly when the
payload flag `ctsProfileMatch` is true, fails with the CTS-profile error exactly when
it is false, and the second integrity flag `basicIntegrity` has no influence:
replacing it by any value (all else equal) leaves the result unchanged. -/
theorem integrity_policy_gating (clock : Nat → Int) (a : Attestation)
    (cdh : List Nat) (v : String) (j : JSONWebSignature) (sig : JoseSignature)
    (chains : List (List Certificate)) (p : PayloadBytes)
    (r : AndroidSafetyNetAttestionResponse)
    (hv : a.attStmt.lookup ("ver") = some (.str v))
    (hv0 : ¬ v = (""))
    (hr : a.attStmt.lookup ("response") = some (.bytes (.serializedJWS j)))
    (hs : j.signatures = [sig])
    (hc : certificates sig ⟨("attest.android.com"), clock 0⟩ = .ok chains)
    (hk : joseVerify j ((chains.headD []).headD emptyCertificate).pubKey = .ok p)
    (hum : jsonUnmarshal p = .ok r)
    (hn : sha256 (a.authData.raw ++ cdh) = r.nonce) :
    (verifyAndroidSafetynet clock a cdh = (none, 1) ↔
      r.ctsProfileMatch = true) ∧
    (r.ctsProfileMatch = false →
      verifyAndroidSafetynet clock a cdh = (some ctsProfileError, 1)) ∧
    (∀ (a₂ : Attestation) (b : Bool),
      a₂.attStmt.lookup ("ver") = some (.str v) →
      a₂.attStmt.lookup ("response") = some (.bytes (.serializedJWS
        ⟨j.signatures, .json { r with basicIntegrity := b }⟩)) →
      a₂.authData = a.authData →
      verifyAndroidSafetynet clock a₂ cdh = verifyAndroidSafetynet clock a cdh) := by
  have heval := verify_eval clock a cdh v j sig chains p r hv hv0 hr hs hc hk hum
  refine ⟨?_, ?_, ?_⟩
  · rw [heval]
    cases hcts : r.ctsProfileMatch <;> simp [hn, hcts]
  · intro hcts
    rw [heval]
    simp [hn, hcts]
  · intro a₂ b hv₂ hr₂ had
    have hkj := joseVerify_ok_inv j ((chains.headD []).headD emptyCertificate).pubKey p hk
    have hk₂ : joseVerify ⟨j.signatures, .json { r with basicIntegrity := b }⟩
        ((chains.headD []).headD emptyCertificate).pubKey =
        .ok (.json { r with basicIntegrity := b }) := by
      unfold joseVerify
      simp only [hkj.1, if_pos]
    have heval₂ := verify_eval clock a₂ cdh v
      ⟨j.signatures, .json { r with basicIntegrity := b }⟩ sig chains
      (.json { r with basicIntegrity := b }) { r with basicIntegrity := b }
      hv₂ hv0 hr₂ hs hc hk₂ rfl
    rw [heval, heval₂, had]

/-- Witness for C4 at a concrete input: on the fully valid
`testAttestation`, success is equivalent to the concrete payload flag
`ctsProfileMatch`, and flipping `basicIntegrity` to false leaves the
result unchanged. -/
theorem integrity_policy_gating_witness :
    (verifyAndroidSafetynet testClock testAttestation [9] = (none, 1) ↔
      testResponse.ctsProfileMatch = true) ∧
    verifyAndroidSafetynet testClock altIntegrityAttestation [9] =
      verifyAndroidSafetynet testClock testAttestation [9] :=
  ⟨(integrity_policy_gating testClock testAttestation [9] ("14") testJWS
      testSig [[testCert]] (.json testResponse) testResponse rfl (by decide)
      rfl rfl rfl rfl rfl rfl).1,
   (integrity_policy_gating testClock testAttestation [9] ("14") testJWS
      testSig [[testCert]] (.json testResponse) testResponse rfl (by decide)
      rfl rfl rfl rfl rfl rfl).2.2 altIntegrityAttestation false rfl rfl rfl⟩

/-- C1, counterexample. The end-to-end scenario read literally is false on
the code: a concrete attestation with version `"14"`, a well-formed signed
response whose chain is valid for identity `attest.example.com` at the clock
time, integrity flag true, and correct nonce, is rejected — the code pins the
identity `attest.android.com` — with the X.509 identity error wrapped as
cause. -/
theorem end_to_end_success_counterexample :
    verifyAndroidSafetynet testClock exampleComAttestation [9] =
      (some (chainError ("x509: certificate is not valid for the requested name")),
        1) ∧
    ¬ ((verifyAndroidSafetynet testClock exampleComAttestation [9]).1 = none) :=
  ⟨by rfl, by decide⟩

/-- C1, amended. End-to-end success with the pinned identity
`attest.android.com`: for version string `"14"` and a well-formed signed
response whose embedded chain is nonempty, valid at the clock time, rooted,
and valid for `attest.android.com`, whose signature verifies under the leaf
key, and whose payload decodes with `ctsProfileMatch` true and nonce equal to
SHA-256 of authenticatorData.raw ++ clientDataHash, verification returns
success (and one clock reading). -/
theorem end_to_end_success (clock : Nat → Int) (a : Attestation)
    (cdh : List Nat) (j : JSONWebSignature) (sig : JoseSignature)
    (leaf : Certificate) (rest : List Certificate)
    (r : AndroidSafetyNetAttestionResponse)
    (hv : a.attStmt.lookup ("ver") = some (.str ("14")))
    (hr : a.attStmt.lookup ("response") = some (.bytes (.serializedJWS j)))
    (hs : j.signatures = [sig])
    (hx5c : sig.x5c = leaf :: rest)
    (htime : sig.x5c.all (fun c => certValidAt c (clock 0)) = true)
    (hrooted : sig.rooted = true)
    (hdns : leaf.dnsNames.contains ("attest.android.com") = true)
    (hkey : sig.sigKey = leaf.pubKey)
    (hpayload : j.payload = .json r)
    (hnonce : r.nonce = sha256 (a.authData.raw ++ cdh))
    (hcts : r.ctsProfileMatch = true) :
    verifyAndroidSafetynet clock a cdh = (none, 1) := by
  have hcert : certificates sig ⟨("attest.android.com"), clock 0⟩ =
      .ok [sig.x5c] := by
    unfold certificates
    rw [hx5c] at htime ⊢
    simp [htime, hrooted, hdns]
    simpa using hdns
  have hleaf : (([sig.x5c].headD []).headD emptyCertificate) = leaf := by
    rw [hx5c]
    rfl
  have hverify : joseVerify j leaf.pubKey = .ok j.payload := by
    unfold joseVerify
    rw [hs]
    simp [hkey]
  have heval := verify_eval clock a cdh ("14") j sig [sig.x5c] (.json r) r hv
    (by decide) hr hs hcert
    (by rw [hleaf, ← hpayload]; exact hverify) rfl
  rw [heval]
  simp [hnonce, hcts]

/-- Witness for the amended claim C1 at a concrete input: `testAttestation`
(identity `attest.android.com`) verifies successfully at the test clock. -/
theorem end_to_end_success_witness :
    verifyAndroidSafetynet testClock testAttestation [9] = (none, 1) :=
  end_to_end_success testClock testAttestation [9] testJWS testSig testCert []
    testResponse rfl rfl rfl rfl rfl rfl rfl rfl rfl rfl rfl

/-- C2, counterexample. Two failing inputs with different triggers — a
missing required field versus a nonce mismatch — carry errors with the *same*
stable error kind: the code returns the single base error
`ErrInvalidAttestation` at every failure site, so the caller cannot
distinguish the triggers by stable kind. -/
theorem error_kinds_counterexample :
    (verifyAndroidSafetynet testClock noVerAttestation [9]).1 =
      some missingVerError ∧
    (verifyAndroidSafetynet testClock testAttestation [8]).1 =
      some nonceMismatchError ∧
    missingVerError.kind = nonceMismatchError.kind :=
  ⟨rfl, rfl, rfl⟩

/-- C2, amended. Uniform stable error kind: every failure of
`verifyAndroidSafetynet` carries the one stable kind of
`ErrInvalidAttestation`; triggers are distinguished only by the non-stable
debug detail (and the optional wrapped cause). -/
theorem error_kind_uniform (clock : Nat → Int) (a : Attestation)
    (cdh : List Nat) (e : ProtocolError)
    (h : (verifyAndroidSafetynet clock a cdh).1 = some e) :
    e.kind = ErrInvalidAttestation.kind := by
  unfold verifyAndroidSafetynet at h
  repeat' first
    | split at h
    | dsimp only [] at h
  all_goals
    first
      | exact Option.noConfusion h
      | (have h' := Option.some.inj h; subst h'; rfl)

/-- Witness for the amended C2 at a concrete input: the nonce-mismatch
failure carries the stable kind of the base error. -/
theorem error_kind_uniform_witness :
    nonceMismatchError.kind = ErrInvalidAttestation.kind :=
  error_kind_uniform testClock testAttestation [8] nonceMismatchError rfl

/-- Once extraction, parsing and the signature-count check have succeeded, the
verifier reaches chain validation and reads the clock exactly once, whatever
happens later. -/
lemma verify_reaches_clock (clock : Nat → Int) (a : Attestation)
    (cdh : List Nat) (v : String) (b : SymBytes) (j : JSONWebSignature)
    (s : JoseSignature)
    (hv : a.attStmt.lookup ("ver") = some (.str v)) (hv0 : ¬ v = (""))
    (hr : a.attStmt.lookup ("response") = some (.bytes b))
    (hj : joseParseSigned b = .ok j) (hsig : j.signatures = [s]) :
    (verifyAndroidSafetynet clock a cdh).2 = 1 := by
  unfold verifyAndroidSafetynet
  simp only [hv, if_neg hv0, hr, hj, hsig]
  repeat' first
    | split
    | dsimp only []

/-- Exhaustive description of the outcomes once extraction, parsing and the
signature-count check have succeeded: the result is a chain error, a
signature-verification error, the decode error, the nonce error, the
CTS-profile error, or success — never an earlier-stage error. -/
lemma verify_late_result (clock : Nat → Int) (a : Attestation) (cdh : List Nat)
    (v : String) (b : SymBytes) (j : JSONWebSignature) (s : JoseSignature)
    (hv : a.attStmt.lookup ("ver") = some (.str v)) (hv0 : ¬ v = (""))
    (hr : a.attStmt.lookup ("response") = some (.bytes b))
    (hj : joseParseSigned b = .ok j) (hsig : j.signatures = [s]) :
    (∃ e, (verifyAndroidSafetynet clock a cdh).1 = some (chainError e)) ∨
    (∃ e, (verifyAndroidSafetynet clock a cdh).1 =
      some (signatureVerifyError e)) ∨
    (verifyAndroidSafetynet clock a cdh).1 =
      some (unmarshalError ("json: cannot unmarshal payload")) ∨
    (verifyAndroidSafetynet clock a cdh).1 = some nonceMismatchError ∨
    (verifyAndroidSafetynet clock a cdh).1 = some ctsProfileError ∨
    (verifyAndroidSafetynet clock a cdh).1 = none := by
  cases hcert : certificates s ⟨("attest.android.com"), clock 0⟩ with
  | error e =>
    refine Or.inl ⟨e, ?_⟩
    unfold verifyAndroidSafetynet
    simp only [hv, if_neg hv0, hr, hj, hsig, hcert]
  | ok chains =>
    cases hver : joseVerify j ((chains.headD []).headD emptyCertificate).pubKey with
    | error e =>
      refine Or.inr (Or.inl ⟨e, ?_⟩)
      unfold verifyAndroidSafetynet
      simp only [hv, if_neg hv0, hr, hj, hsig, hcert, hver]
    | ok p =>
      cases hp : jsonUnmarshal p with
      | error e =>
        obtain rfl := jsonUnmarshal_error_inv p e hp
        refine Or.inr (Or.inr (Or.inl ?_))
        unfold verifyAndroidSafetynet
        simp only [hv, if_neg hv0, hr, hj, hsig, hcert, hver, hp]
      | ok r =>
        by_cases hn : sha256 (a.authData.raw ++ cdh) ≠ r.nonce
        · refine Or.inr (Or.inr (Or.inr (Or.inl ?_)))
          unfold verifyAndroidSafetynet
          simp only [hv, if_neg hv0, hr, hj, hsig, hcert, hver, hp, if_pos hn]
        · cases hcts : r.ctsProfileMatch with
          | false =>
            refine Or.inr (Or.inr (Or.inr (Or.inr (Or.inl ?_))))
            unfold verifyAndroidSafetynet
            simp only [hv, if_neg hv0, hr, hj, hsig, hcert, hver, hp,
              if_neg hn, hcts]
            simp
          | true =>
            refine Or.inr (Or.inr (Or.inr (Or.inr (Or.inr ?_))))
            unfold verifyAndroidSafetynet
            simp only [hv, if_neg hv0, hr, hj, hsig, hcert, hver, hp,
              if_neg hn, hcts]
            simp

/-- C6. Signature-structure check: after successful field extraction, the
verifier fails with the parse error exactly when parsing the signed-response
bytes fails, fails with the signature-count error exactly when the parsed
structure does not have exactly one signature section, and with exactly one
signature section it proceeds to chain validation (the clock is read) and no
longer produces either of those errors. -/
theorem signature_structure_check (clock : Nat → Int) (a : Attestation)
    (cdh : List Nat) (v : String) (b : SymBytes)
    (hv : a.attStmt.lookup ("ver") = some (.str v))
    (hv0 : ¬ v = (""))
    (hr : a.attStmt.lookup ("response") = some (.bytes b)) :
    (∀ e, joseParseSigned b = .error e →
      verifyAndroidSafetynet clock a cdh =
        (some (malformedResponseError e), 0)) ∧
    (∀ j, joseParseSigned b = .ok j → ¬ j.signatures.length = 1 →
      verifyAndroidSafetynet clock a cdh = (some signatureCountError, 0)) ∧
    (∀ j, joseParseSigned b = .ok j → j.signatures.length = 1 →
      (verifyAndroidSafetynet clock a cdh).2 = 1 ∧
      ¬ ((verifyAndroidSafetynet clock a cdh).1 =
          some (malformedResponseError
            ("go-jose: compact JWS format must have three parts"))) ∧
      ¬ ((verifyAndroidSafetynet clock a cdh).1 = some signatureCountError)) := by
  refine ⟨?_, ?_, ?_⟩
  · intro e he
    unfold verifyAndroidSafetynet
    simp only [hv, if_neg hv0, hr, he]
  · intro j hj hlen
    unfold verifyAndroidSafetynet
    simp only [hv, if_neg hv0, hr, hj]
    cases hsig : j.signatures with
    | nil => rfl
    | cons s tl =>
      cases tl with
      | nil => rw [hsig] at hlen; simp at hlen
      | cons s₂ tl₂ => rfl
  · intro j hj hlen
    obtain ⟨s, hsig⟩ : ∃ s, j.signatures = [s] := by
      cases htl : j.signatures with
      | nil => rw [htl] at hlen; simp at hlen
      | cons s tl =>
        cases tl with
        | nil => exact ⟨s, rfl⟩
        | cons s₂ tl₂ => rw [htl] at hlen; simp at hlen
    refine ⟨verify_reaches_clock clock a cdh v b j s hv hv0 hr hj hsig, ?_, ?_⟩
    all_goals
      rcases verify_late_result clock a cdh v b j s hv hv0 hr hj hsig with
        ⟨e, he⟩ | ⟨e, he⟩ | he | he | he | he <;>
      rw [he] <;>
      first
        | decide
        | simp [chainError, signatureVerifyError, malformedResponseError,
            signatureCountError, ProtocolError.withDebug,
            ProtocolError.withCause, ErrInvalidAttestation]

/-- Witness for C6 at a concrete input: on `testAttestation` (whose
response parses to a JWS with exactly one signature section) the verifier
reads the clock and does not produce a signature-structure error. -/
theorem signature_structure_check_witness :
    (verifyAndroidSafetynet testClock testAttestation [9]).2 = 1 ∧
    ¬ ((verifyAndroidSafetynet testClock testAttestation [9]).1 =
        some (malformedResponseError
          ("go-jose: compact JWS format must have three parts"))) ∧
    ¬ ((verifyAndroidSafetynet testClock testAttestation [9]).1 =
        some signatureCountError) :=
  (signature_structure_check testClock testAttestation [9] ("14")
    (.serializedJWS testJWS) rfl (by decide) rfl).2.2 testJWS rfl rfl

/-- C7. Binding soundness: for an otherwise-valid payload captured for
the original pair (authenticator data, client-data hash) — every stage valid
and the payload nonce equal to the digest of the original pair — the original
pair verifies successfully, while changing exactly one of the two components
changes the digest input, hence (the digest being collision-free) the expected
nonce, and verification of the modified pair against the same attestation
statement fails with the nonce-mismatch error. -/
theorem binding_soundness (clock : Nat → Int) (a : Attestation)
    (cdh raw₂ cdh₂ : List Nat) (v : String) (j : JSONWebSignature)
    (sig : JoseSignature) (chains : List (List Certificate))
    (r : AndroidSafetyNetAttestionResponse)
    (hv : a.attStmt.lookup ("ver") = some (.str v))
    (hv0 : ¬ v = (""))
    (hr : a.attStmt.lookup ("response") = some (.bytes (.serializedJWS j)))
    (hs : j.signatures = [sig])
    (hc : certificates sig ⟨("attest.android.com"), clock 0⟩ = .ok chains)
    (hk : joseVerify j ((chains.headD []).headD emptyCertificate).pubKey =
      .ok (.json r))
    (hn : r.nonce = sha256 (a.authData.raw ++ cdh))
    (hcts : r.ctsProfileMatch = true)
    (hchange : (raw₂ = a.authData.raw ∧ ¬ cdh₂ = cdh) ∨
      (¬ raw₂ = a.authData.raw ∧ cdh₂ = cdh)) :
    (verifyAndroidSafetynet clock a cdh).1 = none ∧
    ¬ sha256 (raw₂ ++ cdh₂) = sha256 (a.authData.raw ++ cdh) ∧
    (verifyAndroidSafetynet clock ⟨a.attStmt, ⟨raw₂⟩⟩ cdh₂).1 =
      some nonceMismatchError := by
  have hconcat : ¬ (raw₂ ++ cdh₂ = a.authData.raw ++ cdh) := by
    rcases hchange with ⟨h₁, h₂⟩ | ⟨h₁, h₂⟩
    · intro hEq
      rw [h₁] at hEq
      exact h₂ (List.append_cancel_left hEq)
    · intro hEq
      rw [h₂] at hEq
      exact h₁ (List.append_cancel_right hEq)
  have hsha : ¬ sha256 (raw₂ ++ cdh₂) = sha256 (a.authData.raw ++ cdh) :=
    fun hEq => hconcat (sha256_injective _ _ hEq)
  refine ⟨?_, hsha, ?_⟩
  · rw [verify_eval clock a cdh v j sig chains (.json r) r hv hv0 hr hs hc hk
      rfl]
    simp [hn, hcts]
  · have hcond : ¬ sha256 (raw₂ ++ cdh₂) = r.nonce :=
      fun hEq => hsha (hEq.trans hn)
    rw [verify_eval clock ⟨a.attStmt, ⟨raw₂⟩⟩ cdh₂ v j sig chains (.json r) r
      hv hv0 hr hs hc hk rfl]
    simp [hcond]

/-- Witness for C7 at a concrete input: changing the client-data hash of
the verified `testAttestation` run from `[9]` to `[8]` changes the digest and
produces the nonce-mismatch error. -/
theorem binding_soundness_witness :
    (verifyAndroidSafetynet testClock testAttestation [9]).1 = none ∧
    ¬ sha256 ([1, 2, 3] ++ [8]) = sha256 (testAttestation.authData.raw ++ [9]) ∧
    (verifyAndroidSafetynet testClock
        ⟨testAttestation.attStmt, ⟨[1, 2, 3]⟩⟩ [8]).1 =
      some nonceMismatchError :=
  binding_soundness testClock testAttestation [9] [1, 2, 3] [8] ("14") testJWS
    testSig [[testCert]] testResponse rfl (by decide) rfl rfl rfl rfl rfl rfl
    (Or.inl ⟨rfl, by decide⟩)

/-- C9. Single clock reading: every call performs at most one clock
reading (exactly one once it reaches chain validation), and the result depends
on the clock only through that single first reading — every time-dependent
check uses it.  (That the clock defaults to real wall-clock time is the
statement `var now = time.Now` of the source, an ambient effect outside this
embedding.) -/
theorem single_clock_reading (clock c₂ : Nat → Int) (a : Attestation)
    (cdh : List Nat) (hc : clock 0 = c₂ 0) :
    (verifyAndroidSafetynet clock a cdh).2 ≤ 1 ∧
    verifyAndroidSafetynet clock a cdh = verifyAndroidSafetynet c₂ a cdh ∧
    (∀ v b j s, a.attStmt.lookup ("ver") = some (.str v) → ¬ v = ("") →
      a.attStmt.lookup ("response") = some (.bytes b) →
      joseParseSigned b = .ok j → j.signatures = [s] →
      (verifyAndroidSafetynet clock a cdh).2 = 1) := by
  refine ⟨?_, verify_clock_agree clock c₂ a cdh hc, ?_⟩
  · unfold verifyAndroidSafetynet
    repeat' first
      | split
      | dsimp only []
    all_goals simp
  · intro v b j s hv hv0 hr hj hsig
    exact verify_reaches_clock clock a cdh v b j s hv hv0 hr hj hsig

/-- Witness for C9 at a concrete input: on `testAttestation` the reading
count is at most one (in fact one, chain validation being reached), and a
clock altered beyond its first reading gives the identical result. -/
theorem single_clock_reading_witness :
    (verifyAndroidSafetynet testClock testAttestation [9]).2 ≤ 1 ∧
    verifyAndroidSafetynet testClock testAttestation [9] =
      verifyAndroidSafetynet (fun n => if n = 0 then (5 : Int) else 7)
        testAttestation [9] ∧
    (verifyAndroidSafetynet testClock testAttestation [9]).2 = 1 :=
  ⟨(single_clock_reading testClock (fun n => if n = 0 then (5 : Int) else 7)
      testAttestation [9] rfl).1,
   (single_clock_reading testClock (fun n => if n = 0 then (5 : Int) else 7)
      testAttestation [9] rfl).2.1,
   (single_clock_reading testClock (fun n => if n = 0 then (5 : Int) else 7)
      testAttestation [9] rfl).2.2 ("14") (.serializedJWS testJWS) testJWS
      testSig rfl (by decide) rfl rfl rfl⟩

end AndroidSafetynet
